import Mathlib

/-!
Verification of the `labjack-controller` streaming-acquisition library
(`labjackcontroller/labtools.py`) against its natural-language specification.

The Python code is shallowly embedded: sample values and reconstructed
times are modelled as rationals, the flat ctypes buffer as a `List ℚ`,
Python `int` as `Int`/`Nat`, and fallible operations (out-of-range ctypes
writes, raised exceptions) as `Option`/`Except` results.  Device
interaction (`stream_read`, stream open/start) is modelled by explicit
input lists / oracles, since the device is an external collaborator.
-/

namespace LabjackCtl

/-- Python `int(x)` on a rational: truncation toward zero
(`int(q)` for a Python float/int value `q`). -/
def pyTrunc (q : ℚ) : Int := if 0 ≤ q then ⌊q⌋ else ⌈q⌉

/-- Python `a % b` for `b > 0`: result carries the sign of the divisor,
`a % b = a - b * (a // b)` with floor division. -/
def pyModQ (a b : ℚ) : ℚ := a - b * ⌊a / b⌋

/-! ## Reader buffer state

`LabjackReader` keeps three pieces of buffer state (class attributes
`_input_channels = []`, `_data_arr = None`, `_max_index = 0`). -/

/-- The buffer-related state of a `LabjackReader` object. -/
structure ReaderState where
  inputChannels : List String
  dataArr : Option (List ℚ)
  maxIdx : Nat
deriving DecidableEq

/-- The state of a freshly constructed `LabjackReader`
(class-level defaults, before any `collect_data` run). -/
def ReaderState.fresh : ReaderState := ⟨[], none, 0⟩

/-- The `max_index` property: returns `_max_index` when it is non-`None`
and truthy (i.e. nonzero), else `-1` (lines 857-865). -/
def max_index (s : ReaderState) : Int :=
  if s.maxIdx = 0 then -1 else (s.maxIdx : Int)

/-- The `max_row` property (lines 847-855): `-1` when `max_index < 1`,
else `int(max_index / (len(self._input_channels) + 1))`.
Note the divisor in the source is `len(...) + 1`, not the row width
`len(...) + 2` used everywhere else. -/
def max_row (s : ReaderState) : Int :=
  if max_index s < 1 then -1
  else max_index s / ((s.inputChannels.length : Int) + 1)

/-- Number of fully written rows as computed inside `to_array`
(lines 1773-1778): `int(max_index / (len(self._input_channels) + 2))`. -/
def writtenRows (s : ReaderState) : Nat :=
  s.maxIdx / (s.inputChannels.length + 2)

/-- `_reshape_data(from_row, to_row)` (lines 877-905): slice the flat
array from `from_row * row_width` up to `min(max_index, row_width * to_row)`
and cut it into rows of `row_width`; `None` when the array is missing,
nothing is written, or `from_row < 0`. -/
def reshape_data (s : ReaderState) (fromRow toRow : Int) :
    Option (List (List ℚ)) :=
  match s.dataArr with
  | none => none
  | some arr =>
    if max_index s ≠ -1 ∧ 0 ≤ fromRow then
      let rowWidth : Int := (s.inputChannels.length : Int) + 2
      let maxIndex : Int := min (max_index s) (rowWidth * toRow)
      let startIndex : Int := fromRow * rowWidth
      let slice := (arr.drop startIndex.toNat).take (maxIndex.toNat - startIndex.toNat)
      let w := s.inputChannels.length + 2
      let numRows := (slice.length + w - 1) / w
      some ((List.range numRows).map (fun r => (slice.drop (r * w)).take w))
    else none

/-- The access mode of `to_array` (`mode` plus its kwargs). -/
inductive ArrayMode
| all
| range (start stop : Int)
| relative (numRows : Int)
deriving DecidableEq

/-- `to_array` (lines 1706-1802): `.ok none` models a Python `None`
return, `.error` a raised exception. -/
def to_array (s : ReaderState) (mode : ArrayMode) :
    Except String (Option (List (List ℚ))) :=
  if max_index s < 0 then .ok none
  else
    let maxRow : Int := (writtenRows s : Int)
    match mode with
    | .all => .ok (reshape_data s 0 maxRow)
    | .range start stop =>
      if 0 ≤ start ∧ start < stop ∧ stop < maxRow then
        .ok (reshape_data s start stop)
      else .error "Invalid range provided"
    | .relative numRows =>
      if numRows < 0 ∨ numRows > maxRow then
        .error "Invalid number of rows provided"
      else .ok (reshape_data s (maxRow - numRows) maxRow)

/-- `true` iff the `Except` is a raised exception. -/
def isError {α : Type} : Except String α → Bool
  | .error _ => true
  | .ok _ => false

/-! ## The `collect_data` capture loop (lines 1552-1704)

The loop reads packets from the device stream, writes each scan's
channel values plus a reconstructed device time and a host time into the
flat ctypes array, and finally reports `(total_time, total_skip / num_addrs)`.

Modelling notes, all taken from the source:
* the flat array is `(ctypes.c_double * size)(size)`: length `size`,
  element 0 initialised to `size`, the rest to `0.0`;
* a ctypes slice assignment `arr[c : c+step] = vals` succeeds only when
  the clamped target span has exactly `len(vals)` cells, and a single
  assignment `arr[i] = v` only when `i < len(arr)`; otherwise Python
  raises, the loop aborts, and the object keeps the state it had
  (`crashed := true` below);
* `packet_num` is initialised to `0` (line 1606) and read in the
  device-time formula (line 1637), but its only increment (line 1667)
  sits after the `while` loop, at the `with Pool` body's indentation
  level, so every packet is processed with `packet_num = 0`;
* likewise the sentinel counting (lines 1672-1677) sits after the
  `while` loop and only sees `curr_data` of the final packet read;
* the wall-clock host time (`_time_func() - start`) is an external
  input, modelled as an oracle indexed by the flat write position. -/

/-- Configuration of one `collect_data` run after `_setup` has resolved
the stream parameters. -/
structure CollectConfig where
  numChannels : Nat
  scansPerRead : ℚ
  frequency : ℚ
  size : Nat
  hostClock : Nat → ℚ

/-- Mutable state of the run: the flat array, the write cursor
`_max_index`, and whether a ctypes write raised. -/
structure CollectState where
  arr : List ℚ
  maxIdx : Nat
  crashed : Bool

/-- Python ctypes `arr[c : c+span] = vals`: the target span is clamped
to the array, and assignment succeeds only if its length equals
`vals.length`. -/
def pySliceSet (arr : List ℚ) (c span : Nat) (vals : List ℚ) :
    Option (List ℚ) :=
  let lo := min c arr.length
  let hi := min (c + span) arr.length
  if hi - lo = vals.length then
    some (arr.take lo ++ vals ++ arr.drop (lo + vals.length))
  else none

/-- Python ctypes `arr[i] = v`: in range or `IndexError`. -/
def pySet (arr : List ℚ) (i : Nat) (v : ℚ) : Option (List ℚ) :=
  if i < arr.length then some (arr.set i v) else none

/-- One iteration of the scan loop `for i in range(0, len(curr_data),
step_size)` (lines 1626-1648), at offset `i` into packet `pkt`, with the
current (frozen) `packet_num` value `pktNum`. -/
def processScan (cfg : CollectConfig) (pktNum : Nat) (pkt : List ℚ)
    (i : Nat) (st : CollectState) : CollectState :=
  if st.crashed then st
  else if st.maxIdx ≥ cfg.size then st
  else
    let currTime : ℚ :=
      (cfg.scansPerRead / cfg.frequency) *
        ((pktNum : ℚ) + (i : ℚ) / (pkt.length : ℚ))
    match pySliceSet st.arr st.maxIdx cfg.numChannels
        ((pkt.drop i).take cfg.numChannels) with
    | none => { st with crashed := true }
    | some a1 =>
      let c1 := st.maxIdx + cfg.numChannels
      match pySet a1 c1 currTime with
      | none => { arr := a1, maxIdx := c1, crashed := true }
      | some a2 =>
        match pySet a2 (c1 + 1) (cfg.hostClock (c1 + 1)) with
        | none => { arr := a2, maxIdx := c1 + 1, crashed := true }
        | some a3 => { arr := a3, maxIdx := c1 + 2, crashed := false }

/-- The offsets `range(0, len(curr_data), step_size)` of the scan loop. -/
def scanOffsets (step len : Nat) : List Nat :=
  (List.range ((len + step - 1) / step)).map (· * step)

/-- Process one packet: run the scan loop over all offsets. -/
def processPacket (cfg : CollectConfig) (pktNum : Nat) (pkt : List ℚ)
    (st : CollectState) : CollectState :=
  (scanOffsets cfg.numChannels pkt.length).foldl
    (fun s i => processScan cfg pktNum pkt i s) st

/-- The `max_index` property as used in the loop condition
`while self.max_index < size` (line 1615). -/
def maxIndexProp (m : Nat) : Int := if m = 0 then -1 else (m : Int)

/-- Result of the packet loop: final state, the last packet read
(Python's `curr_data` after the loop), and whether the supplied packet
list ran out while the loop condition still held. -/
structure LoopRes where
  st : CollectState
  lastPacket : Option (List ℚ)
  ranOut : Bool

/-- The packet loop `while self.max_index < size` (lines 1615-1648).
Every packet is processed with `packet_num = 0`, because the increment
sits after the loop in the source. -/
def collectLoop (cfg : CollectConfig) :
    List (List ℚ) → CollectState → Option (List ℚ) → LoopRes
  | [], st, lastP =>
    ⟨st, lastP, ¬st.crashed ∧ maxIndexProp st.maxIdx < (cfg.size : Int)⟩
  | p :: rest, st, lastP =>
    if st.crashed then ⟨st, lastP, false⟩
    else if maxIndexProp st.maxIdx < (cfg.size : Int) then
      collectLoop cfg rest (processPacket cfg 0 p st) (some p)
    else ⟨st, lastP, false⟩

/-- Number of sentinel readings (`value == -9999.0`) in a value list. -/
def countSentinels (vals : List ℚ) : Nat :=
  (vals.filter (fun v => v = -9999)).length

/-- The initial flat array `(ctypes.c_double * size)(size)`:
element 0 holds `size`, the rest `0.0`. -/
def initArr (size : Nat) : List ℚ :=
  match size with
  | 0 => []
  | n + 1 => (((n + 1) : Nat) : ℚ) :: List.replicate n 0

/-- Outcome of a completed `collect_data` run: final buffer state,
the total skip count and the returned skip rate `total_skip / num_addrs`. -/
structure CollectOutcome where
  st : CollectState
  totalSkip : Nat
  skipRate : ℚ

/-- A full `collect_data` run over a finite packet stream:
`none` when the run did not complete normally (a ctypes write raised, or
the packet list was exhausted with the loop condition still true, or no
packet was ever read so `curr_data` is unbound).  After the loop,
`packet_num` is incremented once and the sentinels of the *final* packet
only are counted (lines 1667-1677). -/
def collect_run (cfg : CollectConfig) (pkts : List (List ℚ)) :
    Option CollectOutcome :=
  let st0 : CollectState := ⟨initArr cfg.size, 0, false⟩
  let r := collectLoop cfg pkts st0 none
  if r.st.crashed ∨ r.ranOut then none
  else
    match r.lastPacket with
    | none => none
    | some p =>
      let currSkip := countSentinels p
      some ⟨r.st, currSkip, (currSkip : ℚ) / (cfg.numChannels : ℚ)⟩

/-- The `device_time` column of the written buffer: entry `nc` of each
fully written row of width `nc + 2`. -/
def deviceTimeColumn (st : CollectState) (nc : Nat) : List ℚ :=
  (List.range (st.maxIdx / (nc + 2))).map
    (fun r => st.arr.getD (r * (nc + 2) + nc) 0)

/-- The `LabjackReader` buffer state after a completed `collect_data`
run (lines 1602, 1610 and the loop writes). -/
def readerAfter (inputs : List String) (cfg : CollectConfig)
    (pkts : List (List ℚ)) : Option ReaderState :=
  (collect_run cfg pkts).map
    (fun o => ⟨inputs, some o.st.arr, o.st.maxIdx⟩)

/-- `collect_data`'s buffer capacity `size = int(seconds * frequency *
(len(inputs) + 2))` (line 1590), computed from the *caller-supplied*
frequency, before `_setup` can clamp it. -/
def collectSize (seconds frequency : ℚ) (numInputs : Nat) : Int :=
  pyTrunc (seconds * frequency * ((numInputs : ℚ) + 2))

/-! ## `_setup`: resolving `scans_per_read` (lines 980-987)

After the frequency has been resolved against the device limit, `_setup`
resolves the packet size:
```
if scans_per_read == -1:
    scans_per_read = int(frequency / 2)
elif scans_per_read > frequency:
    warnings.warn("... Setting to be equal to the scan rate.", UserWarning)
    scans_per_read = int(frequency / 2)
```
-/

/-- The resolved `scans_per_read` and whether a warning was recorded. -/
def resolve_scans_per_read (frequency scansPerRead : Int) : Int × Bool :=
  if scansPerRead = -1 then (frequency.tdiv 2, false)
  else if scansPerRead > frequency then (frequency.tdiv 2, true)
  else (scansPerRead, false)

/-! ## `find_max_freq`: the calibration search (lines 1288-1462)

The search is driven by device behaviour, modelled as a list of trial
outcomes consumed one per open attempt:
* `openFail`: `self.open()` / `self._setup(...)` raised (lines 1320-1345);
* `fail`: the stream opened but during the observation window a backlog
  ceiling was exceeded or a skip sentinel appeared (lines 1393-1415);
* `err`: the stream opened but `stream_read` raised `LJMError`
  (lines 1417-1427);
* `ok`: the observation window completed cleanly (lines 1429-1452).

Rates are Python floats holding halvings and `1.5 *` scalings of small
integers, modelled exactly by rationals. -/

/-- The fate of one attempted `(med_rate, scans_per_read)` candidate. -/
inductive Trial
| openFail
| fail
| err
| ok
deriving DecidableEq

/-- The local variables of `find_max_freq` (lines 1300-1313). -/
structure CalState where
  minRate : ℚ
  medRate : ℚ
  maxRate : ℚ
  expMode : Bool
  spr : ℚ
  lastGoodRate : ℚ
  lastGoodSpr : ℚ
  lastAttemptRate : ℚ
  lastAttemptSpr : ℚ
deriving DecidableEq

/-- Initial search state: `min_rate = 0`, `med_rate = 100`,
`max_rate = 0`, exponential mode, `scans_per_read = 1`, and the four
`last_*` sentinels at `-1`. -/
def initCal : CalState := ⟨0, 100, 0, true, 1, -1, -1, -1, -1⟩

/-- The value returned at every `return` site of `find_max_freq`:
`(last_good_rate - last_good_rate % 100, last_good_scan_per_packet)`. -/
def calReturn (s : CalState) : ℚ × ℚ :=
  (s.lastGoodRate - pyModQ s.lastGoodRate 100, s.lastGoodSpr)

/-- Interval degeneration test `int(med_rate) == int(min_rate) or
int(med_rate) == int(max_rate)`. -/
def degenerate (med mn mx : ℚ) : Bool :=
  pyTrunc med = pyTrunc mn ∨ pyTrunc med = pyTrunc mx

/-- Adjustment after a failed open/start (lines 1331-1345): grow the
packet exponentially while it has headroom, otherwise bisect downward
(restoring `scans_per_read = last_good_scan_per_packet`), returning
early when the interval degenerates. -/
def openFailAdjust (s : CalState) : CalState ⊕ (ℚ × ℚ) :=
  if s.spr < s.medRate then
    .inl { s with spr := min (2 * s.spr) s.medRate }
  else
    let md := (s.minRate + s.medRate) / 2
    let s' := { s with expMode := false, spr := s.lastGoodSpr,
                       maxRate := s.medRate, medRate := md }
    if degenerate md s.minRate s.medRate then .inr (calReturn s') else .inl s'

/-- Adjustment after an observed failure — backlog over ceiling or a
skip (lines 1396-1415): grow the packet, otherwise bisect with
`scans_per_read = 1`, returning early when the interval degenerates. -/
def obsFailAdjust (s : CalState) : CalState ⊕ (ℚ × ℚ) :=
  if s.spr < s.medRate then
    .inl { s with spr := min (2 * s.spr) s.medRate }
  else
    let md := (s.minRate + s.medRate) / 2
    let s' := { s with spr := 1, maxRate := s.medRate, medRate := md,
                       expMode := false }
    if degenerate md s.minRate s.medRate then .inr (calReturn s') else .inl s'

/-- The `except LJMError` handler (lines 1417-1427): grow the packet and
continue; but in the saturated branch the `break` sits inside the
`except` clause, so it exits the *outer* `while(1)` loop and
`find_max_freq` falls off its end, returning Python `None`
(modelled by `.inr ()`). -/
def obsErrAdjust (s : CalState) : CalState ⊕ Unit :=
  if s.spr < s.medRate then
    .inl { s with spr := min (2 * s.spr) s.medRate }
  else .inr ()

/-- Success handling (lines 1429-1452): record the candidate as last
good, widen geometrically in exponential mode or step the midpoint up in
binary mode, returning early when the interval degenerates. -/
def obsOkAdjust (s : CalState) : CalState ⊕ (ℚ × ℚ) :=
  let s0 := { s with lastGoodRate := s.medRate, lastGoodSpr := s.spr }
  if s0.expMode then
    let s' := { s0 with minRate := s0.medRate, maxRate := 2 * s0.medRate,
                        medRate := (3 / 2) * s0.medRate }
    if degenerate s'.medRate s'.minRate s'.maxRate then .inr (calReturn s')
    else .inl s'
  else
    let s' := { s0 with minRate := s0.medRate,
                        medRate := (s0.maxRate + s0.medRate) / 2 }
    if degenerate s'.medRate s'.minRate s'.maxRate then .inr (calReturn s')
    else .inl s'

/-- The repeated-candidate guard (lines 1349-1365): shift a bound toward
the midpoint and recompute it. -/
def repeatAdjust (s : CalState) : CalState :=
  let s' := if s.lastAttemptRate = s.lastGoodRate ∧
               s.lastAttemptSpr = s.lastGoodSpr
            then { s with minRate := s.medRate }
            else { s with maxRate := s.medRate }
  { s' with medRate := (s'.minRate + s'.maxRate) / 2 }

/-- Result of the open phase (the `while not opened` loop,
lines 1320-1347). -/
inductive OpenRes
| opened (s : CalState) (t : Trial) (rest : List Trial)
| returned (v : ℚ × ℚ)
| exhausted

/-- The open phase: consume trials while opening fails, adjusting after
each failure; stop at the first trial whose open succeeds. -/
def openPhase : CalState → List Trial → OpenRes
  | _, [] => .exhausted
  | s, .openFail :: rest =>
    match openFailAdjust s with
    | .inl s' => openPhase s' rest
    | .inr v => .returned v
  | s, .fail :: rest => .opened s .fail rest
  | s, .err :: rest => .opened s .err rest
  | s, .ok :: rest => .opened s .ok rest

/-- The outer `while(1)` search loop of `find_max_freq`.
`some (some v)` models `return v`; `some none` models the function
falling off its end and returning Python `None` (via the `break` in the
`LJMError` handler); `none` means the supplied fuel or trial list ran
out before the search finished.  The unreachable `openFail` case of the
inner match (openPhase never yields it) also maps to `none`. -/
def runCal : Nat → CalState → List Trial → Option (Option (ℚ × ℚ))
  | 0, _, _ => none
  | fuel + 1, s, trials =>
    match openPhase s trials with
    | .exhausted => none
    | .returned v => some (some v)
    | .opened s1 t rest =>
      if s1.lastAttemptRate = s1.medRate ∧ s1.lastAttemptSpr = s1.spr ∧
         s1.expMode = false then
        runCal fuel (repeatAdjust s1) rest
      else
        let s2 := { s1 with lastAttemptRate := s1.medRate,
                            lastAttemptSpr := s1.spr }
        match t with
        | .openFail => none
        | .fail =>
          match obsFailAdjust s2 with
          | .inl s3 => runCal fuel s3 rest
          | .inr v => some (some v)
        | .err =>
          match obsErrAdjust s2 with
          | .inl s3 => runCal fuel s3 rest
          | .inr _ => some none
        | .ok =>
          match obsOkAdjust s2 with
          | .inl s3 => runCal fuel s3 rest
          | .inr v => some (some v)

/-- Unfolding lemma: one search iteration consuming a `fail` trial. -/
theorem runCal_cons_fail (fuel : Nat) (s : CalState) (rest : List Trial) :
    runCal (fuel + 1) s (Trial.fail :: rest) =
      (if s.lastAttemptRate = s.medRate ∧ s.lastAttemptSpr = s.spr ∧
          s.expMode = false then
        runCal fuel (repeatAdjust s) rest
      else
        match obsFailAdjust { s with lastAttemptRate := s.medRate,
                                     lastAttemptSpr := s.spr } with
        | .inl s3 => runCal fuel s3 rest
        | .inr v => some (some v)) := rfl

/-- Unfolding lemma: one search iteration consuming an `err` trial. -/
theorem runCal_cons_err (fuel : Nat) (s : CalState) (rest : List Trial) :
    runCal (fuel + 1) s (Trial.err :: rest) =
      (if s.lastAttemptRate = s.medRate ∧ s.lastAttemptSpr = s.spr ∧
          s.expMode = false then
        runCal fuel (repeatAdjust s) rest
      else
        match obsErrAdjust { s with lastAttemptRate := s.medRate,
                                    lastAttemptSpr := s.spr } with
        | .inl s3 => runCal fuel s3 rest
        | .inr _ => some none) := rfl

/-- Unfolding lemma: one search iteration consuming an `ok` trial. -/
theorem runCal_cons_ok (fuel : Nat) (s : CalState) (rest : List Trial) :
    runCal (fuel + 1) s (Trial.ok :: rest) =
      (if s.lastAttemptRate = s.medRate ∧ s.lastAttemptSpr = s.spr ∧
          s.expMode = false then
        runCal fuel (repeatAdjust s) rest
      else
        match obsOkAdjust { s with lastAttemptRate := s.medRate,
                                   lastAttemptSpr := s.spr } with
        | .inl s3 => runCal fuel s3 rest
        | .inr v => some (some v)) := rfl

example : max_index ReaderState.fresh = -1 := by decide
example : max_row ReaderState.fresh = -1 := by decide
example : to_array ReaderState.fresh .all = .ok none := rfl
example : to_array ReaderState.fresh (.range 17 65) = .ok none := rfl

-- a state with two written rows, one channel (row width 3)
example :
    isError (to_array ⟨["AIN0"], some [1, 0, 0, 2, 0, 0], 6⟩ (.range 5 3)) = true := by
  decide

example :
    to_array ⟨["AIN0"], some [1, 0, 0, 2, 0, 0, 0, 0, 0], 9⟩ (.range 0 1)
      = .ok (some [[1, 0, 0]]) := rfl

/-! ## Concrete calibration traces

Step-by-step evaluation of `runCal` on two concrete device behaviours,
one iteration per lemma (each consumes one trial and one unit of fuel).
The intermediate states were obtained by running the embedded search. -/

/-- Step 0 of the all-failures calibration trace (one `fail` trial). -/
theorem calFailStep0 (fuel : Nat) (rest : List Trial) :
    runCal (fuel + 1) ⟨0, 100, 0, true, 1, (-1), (-1), (-1), (-1)⟩ (.fail :: rest)
      = runCal fuel ⟨0, 100, 0, true, 2, (-1), (-1), 100, 1⟩ rest := by
  rw [LabjackCtl.runCal_cons_fail]
  norm_num [LabjackCtl.repeatAdjust, LabjackCtl.obsFailAdjust,
    LabjackCtl.obsErrAdjust, LabjackCtl.degenerate, LabjackCtl.pyTrunc,
    LabjackCtl.pyModQ, LabjackCtl.calReturn]
/-- Step 1 of the all-failures calibration trace (one `fail` trial). -/
theorem calFailStep1 (fuel : Nat) (rest : List Trial) :
    runCal (fuel + 1) ⟨0, 100, 0, true, 2, (-1), (-1), 100, 1⟩ (.fail :: rest)
      = runCal fuel ⟨0, 100, 0, true, 4, (-1), (-1), 100, 2⟩ rest := by
  rw [LabjackCtl.runCal_cons_fail]
  norm_num [LabjackCtl.repeatAdjust, LabjackCtl.obsFailAdjust,
    LabjackCtl.obsErrAdjust, LabjackCtl.degenerate, LabjackCtl.pyTrunc,
    LabjackCtl.pyModQ, LabjackCtl.calReturn]
/-- Step 2 of the all-failures calibration trace (one `fail` trial). -/
theorem calFailStep2 (fuel : Nat) (rest : List Trial) :
    runCal (fuel + 1) ⟨0, 100, 0, true, 4, (-1), (-1), 100, 2⟩ (.fail :: rest)
      = runCal fuel ⟨0, 100, 0, true, 8, (-1), (-1), 100, 4⟩ rest := by
  rw [LabjackCtl.runCal_cons_fail]
  norm_num [LabjackCtl.repeatAdjust, LabjackCtl.obsFailAdjust,
    LabjackCtl.obsErrAdjust, LabjackCtl.degenerate, LabjackCtl.pyTrunc,
    LabjackCtl.pyModQ, LabjackCtl.calReturn]
/-- Step 3 of the all-failures calibration trace (one `fail` trial). -/
theorem calFailStep3 (fuel : Nat) (rest : List Trial) :
    runCal (fuel + 1) ⟨0, 100, 0, true, 8, (-1), (-1), 100, 4⟩ (.fail :: rest)
      = runCal fuel ⟨0, 100, 0, true, 16, (-1), (-1), 100, 8⟩ rest := by
  rw [LabjackCtl.runCal_cons_fail]
  norm_num [LabjackCtl.repeatAdjust, LabjackCtl.obsFailAdjust,
    LabjackCtl.obsErrAdjust, LabjackCtl.degenerate, LabjackCtl.pyTrunc,
    LabjackCtl.pyModQ, LabjackCtl.calReturn]
/-- Step 4 of the all-failures calibration trace (one `fail` trial). -/
theorem calFailStep4 (fuel : Nat) (rest : List Trial) :
    runCal (fuel + 1) ⟨0, 100, 0, true, 16, (-1), (-1), 100, 8⟩ (.fail :: rest)
      = runCal fuel ⟨0, 100, 0, true, 32, (-1), (-1), 100, 16⟩ rest := by
  rw [LabjackCtl.runCal_cons_fail]
  norm_num [LabjackCtl.repeatAdjust, LabjackCtl.obsFailAdjust,
    LabjackCtl.obsErrAdjust, LabjackCtl.degenerate, LabjackCtl.pyTrunc,
    LabjackCtl.pyModQ, LabjackCtl.calReturn]
/-- Step 5 of the all-failures calibration trace (one `fail` trial). -/
theorem calFailStep5 (fuel : Nat) (rest : List Trial) :
    runCal (fuel + 1) ⟨0, 100, 0, true, 32, (-1), (-1), 100, 16⟩ (.fail :: rest)
      = runCal fuel ⟨0, 100, 0, true, 64, (-1), (-1), 100, 32⟩ rest := by
  rw [LabjackCtl.runCal_cons_fail]
  norm_num [LabjackCtl.repeatAdjust, LabjackCtl.obsFailAdjust,
    LabjackCtl.obsErrAdjust, LabjackCtl.degenerate, LabjackCtl.pyTrunc,
    LabjackCtl.pyModQ, LabjackCtl.calReturn]
/-- Step 6 of the all-failures calibration trace (one `fail` trial). -/
theorem calFailStep6 (fuel : Nat) (rest : List Trial) :
    runCal (fuel + 1) ⟨0, 100, 0, true, 64, (-1), (-1), 100, 32⟩ (.fail :: rest)
      = runCal fuel ⟨0, 100, 0, true, 100, (-1), (-1), 100, 64⟩ rest := by
  rw [LabjackCtl.runCal_cons_fail]
  norm_num [LabjackCtl.repeatAdjust, LabjackCtl.obsFailAdjust,
    LabjackCtl.obsErrAdjust, LabjackCtl.degenerate, LabjackCtl.pyTrunc,
    LabjackCtl.pyModQ, LabjackCtl.calReturn]
/-- Step 7 of the all-failures calibration trace (one `fail` trial). -/
theorem calFailStep7 (fuel : Nat) (rest : List Trial) :
    runCal (fuel + 1) ⟨0, 100, 0, true, 100, (-1), (-1), 100, 64⟩ (.fail :: rest)
      = runCal fuel ⟨0, 50, 100, false, 1, (-1), (-1), 100, 100⟩ rest := by
  rw [LabjackCtl.runCal_cons_fail]
  norm_num [LabjackCtl.repeatAdjust, LabjackCtl.obsFailAdjust,
    LabjackCtl.obsErrAdjust, LabjackCtl.degenerate, LabjackCtl.pyTrunc,
    LabjackCtl.pyModQ, LabjackCtl.calReturn]
/-- Step 8 of the all-failures calibration trace (one `fail` trial). -/
theorem calFailStep8 (fuel : Nat) (rest : List Trial) :
    runCal (fuel + 1) ⟨0, 50, 100, false, 1, (-1), (-1), 100, 100⟩ (.fail :: rest)
      = runCal fuel ⟨0, 50, 100, false, 2, (-1), (-1), 50, 1⟩ rest := by
  rw [LabjackCtl.runCal_cons_fail]
  norm_num [LabjackCtl.repeatAdjust, LabjackCtl.obsFailAdjust,
    LabjackCtl.obsErrAdjust, LabjackCtl.degenerate, LabjackCtl.pyTrunc,
    LabjackCtl.pyModQ, LabjackCtl.calReturn]
/-- Step 9 of the all-failures calibration trace (one `fail` trial). -/
theorem calFailStep9 (fuel : Nat) (rest : List Trial) :
    runCal (fuel + 1) ⟨0, 50, 100, false, 2, (-1), (-1), 50, 1⟩ (.fail :: rest)
      = runCal fuel ⟨0, 50, 100, false, 4, (-1), (-1), 50, 2⟩ rest := by
  rw [LabjackCtl.runCal_cons_fail]
  norm_num [LabjackCtl.repeatAdjust, LabjackCtl.obsFailAdjust,
    LabjackCtl.obsErrAdjust, LabjackCtl.degenerate, LabjackCtl.pyTrunc,
    LabjackCtl.pyModQ, LabjackCtl.calReturn]
/-- Step 10 of the all-failures calibration trace (one `fail` trial). -/
theorem calFailStep10 (fuel : Nat) (rest : List Trial) :
    runCal (fuel + 1) ⟨0, 50, 100, false, 4, (-1), (-1), 50, 2⟩ (.fail :: rest)
      = runCal fuel ⟨0, 50, 100, false, 8, (-1), (-1), 50, 4⟩ rest := by
  rw [LabjackCtl.runCal_cons_fail]
  norm_num [LabjackCtl.repeatAdjust, LabjackCtl.obsFailAdjust,
    LabjackCtl.obsErrAdjust, LabjackCtl.degenerate, LabjackCtl.pyTrunc,
    LabjackCtl.pyModQ, LabjackCtl.calReturn]
/-- Step 11 of the all-failures calibration trace (one `fail` trial). -/
theorem calFailStep11 (fuel : Nat) (rest : List Trial) :
    runCal (fuel + 1) ⟨0, 50, 100, false, 8, (-1), (-1), 50, 4⟩ (.fail :: rest)
      = runCal fuel ⟨0, 50, 100, false, 16, (-1), (-1), 50, 8⟩ rest := by
  rw [LabjackCtl.runCal_cons_fail]
  norm_num [LabjackCtl.repeatAdjust, LabjackCtl.obsFailAdjust,
    LabjackCtl.obsErrAdjust, LabjackCtl.degenerate, LabjackCtl.pyTrunc,
    LabjackCtl.pyModQ, LabjackCtl.calReturn]
/-- Step 12 of the all-failures calibration trace (one `fail` trial). -/
theorem calFailStep12 (fuel : Nat) (rest : List Trial) :
    runCal (fuel + 1) ⟨0, 50, 100, false, 16, (-1), (-1), 50, 8⟩ (.fail :: rest)
      = runCal fuel ⟨0, 50, 100, false, 32, (-1), (-1), 50, 16⟩ rest := by
  rw [LabjackCtl.runCal_cons_fail]
  norm_num [LabjackCtl.repeatAdjust, LabjackCtl.obsFailAdjust,
    LabjackCtl.obsErrAdjust, LabjackCtl.degenerate, LabjackCtl.pyTrunc,
    LabjackCtl.pyModQ, LabjackCtl.calReturn]
/-- Step 13 of the all-failures calibration trace (one `fail` trial). -/
theorem calFailStep13 (fuel : Nat) (rest : List Trial) :
    runCal (fuel + 1) ⟨0, 50, 100, false, 32, (-1), (-1), 50, 16⟩ (.fail :: rest)
      = runCal fuel ⟨0, 50, 100, false, 50, (-1), (-1), 50, 32⟩ rest := by
  rw [LabjackCtl.runCal_cons_fail]
  norm_num [LabjackCtl.repeatAdjust, LabjackCtl.obsFailAdjust,
    LabjackCtl.obsErrAdjust, LabjackCtl.degenerate, LabjackCtl.pyTrunc,
    LabjackCtl.pyModQ, LabjackCtl.calReturn]
/-- Step 14 of the all-failures calibration trace (one `fail` trial). -/
theorem calFailStep14 (fuel : Nat) (rest : List Trial) :
    runCal (fuel + 1) ⟨0, 50, 100, false, 50, (-1), (-1), 50, 32⟩ (.fail :: rest)
      = runCal fuel ⟨0, 25, 50, false, 1, (-1), (-1), 50, 50⟩ rest := by
  rw [LabjackCtl.runCal_cons_fail]
  norm_num [LabjackCtl.repeatAdjust, LabjackCtl.obsFailAdjust,
    LabjackCtl.obsErrAdjust, LabjackCtl.degenerate, LabjackCtl.pyTrunc,
    LabjackCtl.pyModQ, LabjackCtl.calReturn]
/-- Step 15 of the all-failures calibration trace (one `fail` trial). -/
theorem calFailStep15 (fuel : Nat) (rest : List Trial) :
    runCal (fuel + 1) ⟨0, 25, 50, false, 1, (-1), (-1), 50, 50⟩ (.fail :: rest)
      = runCal fuel ⟨0, 25, 50, false, 2, (-1), (-1), 25, 1⟩ rest := by
  rw [LabjackCtl.runCal_cons_fail]
  norm_num [LabjackCtl.repeatAdjust, LabjackCtl.obsFailAdjust,
    LabjackCtl.obsErrAdjust, LabjackCtl.degenerate, LabjackCtl.pyTrunc,
    LabjackCtl.pyModQ, LabjackCtl.calReturn]
/-- Step 16 of the all-failures calibration trace (one `fail` trial). -/
theorem calFailStep16 (fuel : Nat) (rest : List Trial) :
    runCal (fuel + 1) ⟨0, 25, 50, false, 2, (-1), (-1), 25, 1⟩ (.fail :: rest)
      = runCal fuel ⟨0, 25, 50, false, 4, (-1), (-1), 25, 2⟩ rest := by
  rw [LabjackCtl.runCal_cons_fail]
  norm_num [LabjackCtl.repeatAdjust, LabjackCtl.obsFailAdjust,
    LabjackCtl.obsErrAdjust, LabjackCtl.degenerate, LabjackCtl.pyTrunc,
    LabjackCtl.pyModQ, LabjackCtl.calReturn]
/-- Step 17 of the all-failures calibration trace (one `fail` trial). -/
theorem calFailStep17 (fuel : Nat) (rest : List Trial) :
    runCal (fuel + 1) ⟨0, 25, 50, false, 4, (-1), (-1), 25, 2⟩ (.fail :: rest)
      = runCal fuel ⟨0, 25, 50, false, 8, (-1), (-1), 25, 4⟩ rest := by
  rw [LabjackCtl.runCal_cons_fail]
  norm_num [LabjackCtl.repeatAdjust, LabjackCtl.obsFailAdjust,
    LabjackCtl.obsErrAdjust, LabjackCtl.degenerate, LabjackCtl.pyTrunc,
    LabjackCtl.pyModQ, LabjackCtl.calReturn]
/-- Step 18 of the all-failures calibration trace (one `fail` trial). -/
theorem calFailStep18 (fuel : Nat) (rest : List Trial) :
    runCal (fuel + 1) ⟨0, 25, 50, false, 8, (-1), (-1), 25, 4⟩ (.fail :: rest)
      = runCal fuel ⟨0, 25, 50, false, 16, (-1), (-1), 25, 8⟩ rest := by
  rw [LabjackCtl.runCal_cons_fail]
  norm_num [LabjackCtl.repeatAdjust, LabjackCtl.obsFailAdjust,
    LabjackCtl.obsErrAdjust, LabjackCtl.degenerate, LabjackCtl.pyTrunc,
    LabjackCtl.pyModQ, LabjackCtl.calReturn]
/-- Step 19 of the all-failures calibration trace (one `fail` trial). -/
theorem calFailStep19 (fuel : Nat) (rest : List Trial) :
    runCal (fuel + 1) ⟨0, 25, 50, false, 16, (-1), (-1), 25, 8⟩ (.fail :: rest)
      = runCal fuel ⟨0, 25, 50, false, 25, (-1), (-1), 25, 16⟩ rest := by
  rw [LabjackCtl.runCal_cons_fail]
  norm_num [LabjackCtl.repeatAdjust, LabjackCtl.obsFailAdjust,
    LabjackCtl.obsErrAdjust, LabjackCtl.degenerate, LabjackCtl.pyTrunc,
    LabjackCtl.pyModQ, LabjackCtl.calReturn]
/-- Step 20 of the all-failures calibration trace (one `fail` trial). -/
theorem calFailStep20 (fuel : Nat) (rest : List Trial) :
    runCal (fuel + 1) ⟨0, 25, 50, false, 25, (-1), (-1), 25, 16⟩ (.fail :: rest)
      = runCal fuel ⟨0, 25/2, 25, false, 1, (-1), (-1), 25, 25⟩ rest := by
  rw [LabjackCtl.runCal_cons_fail]
  norm_num [LabjackCtl.repeatAdjust, LabjackCtl.obsFailAdjust,
    LabjackCtl.obsErrAdjust, LabjackCtl.degenerate, LabjackCtl.pyTrunc,
    LabjackCtl.pyModQ, LabjackCtl.calReturn]
/-- Step 21 of the all-failures calibration trace (one `fail` trial). -/
theorem calFailStep21 (fuel : Nat) (rest : List Trial) :
    runCal (fuel + 1) ⟨0, 25/2, 25, false, 1, (-1), (-1), 25, 25⟩ (.fail :: rest)
      = runCal fuel ⟨0, 25/2, 25, false, 2, (-1), (-1), 25/2, 1⟩ rest := by
  rw [LabjackCtl.runCal_cons_fail]
  norm_num [LabjackCtl.repeatAdjust, LabjackCtl.obsFailAdjust,
    LabjackCtl.obsErrAdjust, LabjackCtl.degenerate, LabjackCtl.pyTrunc,
    LabjackCtl.pyModQ, LabjackCtl.calReturn]
/-- Step 22 of the all-failures calibration trace (one `fail` trial). -/
theorem calFailStep22 (fuel : Nat) (rest : List Trial) :
    runCal (fuel + 1) ⟨0, 25/2, 25, false, 2, (-1), (-1), 25/2, 1⟩ (.fail :: rest)
      = runCal fuel ⟨0, 25/2, 25, false, 4, (-1), (-1), 25/2, 2⟩ rest := by
  rw [LabjackCtl.runCal_cons_fail]
  norm_num [LabjackCtl.repeatAdjust, LabjackCtl.obsFailAdjust,
    LabjackCtl.obsErrAdjust, LabjackCtl.degenerate, LabjackCtl.pyTrunc,
    LabjackCtl.pyModQ, LabjackCtl.calReturn]
/-- Step 23 of the all-failures calibration trace (one `fail` trial). -/
theorem calFailStep23 (fuel : Nat) (rest : List Trial) :
    runCal (fuel + 1) ⟨0, 25/2, 25, false, 4, (-1), (-1), 25/2, 2⟩ (.fail :: rest)
      = runCal fuel ⟨0, 25/2, 25, false, 8, (-1), (-1), 25/2, 4⟩ rest := by
  rw [LabjackCtl.runCal_cons_fail]
  norm_num [LabjackCtl.repeatAdjust, LabjackCtl.obsFailAdjust,
    LabjackCtl.obsErrAdjust, LabjackCtl.degenerate, LabjackCtl.pyTrunc,
    LabjackCtl.pyModQ, LabjackCtl.calReturn]
/-- Step 24 of the all-failures calibration trace (one `fail` trial). -/
theorem calFailStep24 (fuel : Nat) (rest : List Trial) :
    runCal (fuel + 1) ⟨0, 25/2, 25, false, 8, (-1), (-1), 25/2, 4⟩ (.fail :: rest)
      = runCal fuel ⟨0, 25/2, 25, false, 25/2, (-1), (-1), 25/2, 8⟩ rest := by
  rw [LabjackCtl.runCal_cons_fail]
  norm_num [LabjackCtl.repeatAdjust, LabjackCtl.obsFailAdjust,
    LabjackCtl.obsErrAdjust, LabjackCtl.degenerate, LabjackCtl.pyTrunc,
    LabjackCtl.pyModQ, LabjackCtl.calReturn]
/-- Step 25 of the all-failures calibration trace (one `fail` trial). -/
theorem calFailStep25 (fuel : Nat) (rest : List Trial) :
    runCal (fuel + 1) ⟨0, 25/2, 25, false, 25/2, (-1), (-1), 25/2, 8⟩ (.fail :: rest)
      = runCal fuel ⟨0, 25/4, 25/2, false, 1, (-1), (-1), 25/2, 25/2⟩ rest := by
  rw [LabjackCtl.runCal_cons_fail]
  norm_num [LabjackCtl.repeatAdjust, LabjackCtl.obsFailAdjust,
    LabjackCtl.obsErrAdjust, LabjackCtl.degenerate, LabjackCtl.pyTrunc,
    LabjackCtl.pyModQ, LabjackCtl.calReturn]
/-- Step 26 of the all-failures calibration trace (one `fail` trial). -/
theorem calFailStep26 (fuel : Nat) (rest : List Trial) :
    runCal (fuel + 1) ⟨0, 25/4, 25/2, false, 1, (-1), (-1), 25/2, 25/2⟩ (.fail :: rest)
      = runCal fuel ⟨0, 25/4, 25/2, false, 2, (-1), (-1), 25/4, 1⟩ rest := by
  rw [LabjackCtl.runCal_cons_fail]
  norm_num [LabjackCtl.repeatAdjust, LabjackCtl.obsFailAdjust,
    LabjackCtl.obsErrAdjust, LabjackCtl.degenerate, LabjackCtl.pyTrunc,
    LabjackCtl.pyModQ, LabjackCtl.calReturn]
/-- Step 27 of the all-failures calibration trace (one `fail` trial). -/
theorem calFailStep27 (fuel : Nat) (rest : List Trial) :
    runCal (fuel + 1) ⟨0, 25/4, 25/2, false, 2, (-1), (-1), 25/4, 1⟩ (.fail :: rest)
      = runCal fuel ⟨0, 25/4, 25/2, false, 4, (-1), (-1), 25/4, 2⟩ rest := by
  rw [LabjackCtl.runCal_cons_fail]
  norm_num [LabjackCtl.repeatAdjust, LabjackCtl.obsFailAdjust,
    LabjackCtl.obsErrAdjust, LabjackCtl.degenerate, LabjackCtl.pyTrunc,
    LabjackCtl.pyModQ, LabjackCtl.calReturn]
/-- Step 28 of the all-failures calibration trace (one `fail` trial). -/
theorem calFailStep28 (fuel : Nat) (rest : List Trial) :
    runCal (fuel + 1) ⟨0, 25/4, 25/2, false, 4, (-1), (-1), 25/4, 2⟩ (.fail :: rest)
      = runCal fuel ⟨0, 25/4, 25/2, false, 25/4, (-1), (-1), 25/4, 4⟩ rest := by
  rw [LabjackCtl.runCal_cons_fail]
  norm_num [LabjackCtl.repeatAdjust, LabjackCtl.obsFailAdjust,
    LabjackCtl.obsErrAdjust, LabjackCtl.degenerate, LabjackCtl.pyTrunc,
    LabjackCtl.pyModQ, LabjackCtl.calReturn]
/-- Step 29 of the all-failures calibration trace (one `fail` trial). -/
theorem calFailStep29 (fuel : Nat) (rest : List Trial) :
    runCal (fuel + 1) ⟨0, 25/4, 25/2, false, 25/4, (-1), (-1), 25/4, 4⟩ (.fail :: rest)
      = runCal fuel ⟨0, 25/8, 25/4, false, 1, (-1), (-1), 25/4, 25/4⟩ rest := by
  rw [LabjackCtl.runCal_cons_fail]
  norm_num [LabjackCtl.repeatAdjust, LabjackCtl.obsFailAdjust,
    LabjackCtl.obsErrAdjust, LabjackCtl.degenerate, LabjackCtl.pyTrunc,
    LabjackCtl.pyModQ, LabjackCtl.calReturn]
/-- Step 30 of the all-failures calibration trace (one `fail` trial). -/
theorem calFailStep30 (fuel : Nat) (rest : List Trial) :
    runCal (fuel + 1) ⟨0, 25/8, 25/4, false, 1, (-1), (-1), 25/4, 25/4⟩ (.fail :: rest)
      = runCal fuel ⟨0, 25/8, 25/4, false, 2, (-1), (-1), 25/8, 1⟩ rest := by
  rw [LabjackCtl.runCal_cons_fail]
  norm_num [LabjackCtl.repeatAdjust, LabjackCtl.obsFailAdjust,
    LabjackCtl.obsErrAdjust, LabjackCtl.degenerate, LabjackCtl.pyTrunc,
    LabjackCtl.pyModQ, LabjackCtl.calReturn]
/-- Step 31 of the all-failures calibration trace (one `fail` trial). -/
theorem calFailStep31 (fuel : Nat) (rest : List Trial) :
    runCal (fuel + 1) ⟨0, 25/8, 25/4, false, 2, (-1), (-1), 25/8, 1⟩ (.fail :: rest)
      = runCal fuel ⟨0, 25/8, 25/4, false, 25/8, (-1), (-1), 25/8, 2⟩ rest := by
  rw [LabjackCtl.runCal_cons_fail]
  norm_num [LabjackCtl.repeatAdjust, LabjackCtl.obsFailAdjust,
    LabjackCtl.obsErrAdjust, LabjackCtl.degenerate, LabjackCtl.pyTrunc,
    LabjackCtl.pyModQ, LabjackCtl.calReturn]
/-- Step 32 of the all-failures calibration trace (one `fail` trial). -/
theorem calFailStep32 (fuel : Nat) (rest : List Trial) :
    runCal (fuel + 1) ⟨0, 25/8, 25/4, false, 25/8, (-1), (-1), 25/8, 2⟩ (.fail :: rest)
      = runCal fuel ⟨0, 25/16, 25/8, false, 1, (-1), (-1), 25/8, 25/8⟩ rest := by
  rw [LabjackCtl.runCal_cons_fail]
  norm_num [LabjackCtl.repeatAdjust, LabjackCtl.obsFailAdjust,
    LabjackCtl.obsErrAdjust, LabjackCtl.degenerate, LabjackCtl.pyTrunc,
    LabjackCtl.pyModQ, LabjackCtl.calReturn]
/-- Step 33 of the all-failures calibration trace (one `fail` trial). -/
theorem calFailStep33 (fuel : Nat) (rest : List Trial) :
    runCal (fuel + 1) ⟨0, 25/16, 25/8, false, 1, (-1), (-1), 25/8, 25/8⟩ (.fail :: rest)
      = runCal fuel ⟨0, 25/16, 25/8, false, 25/16, (-1), (-1), 25/16, 1⟩ rest := by
  rw [LabjackCtl.runCal_cons_fail]
  norm_num [LabjackCtl.repeatAdjust, LabjackCtl.obsFailAdjust,
    LabjackCtl.obsErrAdjust, LabjackCtl.degenerate, LabjackCtl.pyTrunc,
    LabjackCtl.pyModQ, LabjackCtl.calReturn]
/-- Final step of the all-failures calibration trace: the interval
degenerates and the sentinel last-good pair is floored and returned. -/
theorem calFailStep34 (fuel : Nat) (rest : List Trial) :
    runCal (fuel + 1) ⟨0, 25/16, 25/8, false, 25/16, (-1), (-1), 25/16, 1⟩ (.fail :: rest)
      = some (some (-100, -1)) := by
  rw [LabjackCtl.runCal_cons_fail]
  norm_num [LabjackCtl.repeatAdjust, LabjackCtl.obsFailAdjust,
    LabjackCtl.obsErrAdjust, LabjackCtl.degenerate, LabjackCtl.pyTrunc,
    LabjackCtl.pyModQ, LabjackCtl.calReturn]
/-- Step 0 of the all-`LJMError` calibration trace. -/
theorem calErrStep0 (fuel : Nat) (rest : List Trial) :
    runCal (fuel + 1) ⟨0, 100, 0, true, 1, (-1), (-1), (-1), (-1)⟩ (.err :: rest)
      = runCal fuel ⟨0, 100, 0, true, 2, (-1), (-1), 100, 1⟩ rest := by
  rw [LabjackCtl.runCal_cons_err]
  norm_num [LabjackCtl.repeatAdjust, LabjackCtl.obsFailAdjust,
    LabjackCtl.obsErrAdjust, LabjackCtl.degenerate, LabjackCtl.pyTrunc,
    LabjackCtl.pyModQ, LabjackCtl.calReturn]
/-- Step 1 of the all-`LJMError` calibration trace. -/
theorem calErrStep1 (fuel : Nat) (rest : List Trial) :
    runCal (fuel + 1) ⟨0, 100, 0, true, 2, (-1), (-1), 100, 1⟩ (.err :: rest)
      = runCal fuel ⟨0, 100, 0, true, 4, (-1), (-1), 100, 2⟩ rest := by
  rw [LabjackCtl.runCal_cons_err]
  norm_num [LabjackCtl.repeatAdjust, LabjackCtl.obsFailAdjust,
    LabjackCtl.obsErrAdjust, LabjackCtl.degenerate, LabjackCtl.pyTrunc,
    LabjackCtl.pyModQ, LabjackCtl.calReturn]
/-- Step 2 of the all-`LJMError` calibration trace. -/
theorem calErrStep2 (fuel : Nat) (rest : List Trial) :
    runCal (fuel + 1) ⟨0, 100, 0, true, 4, (-1), (-1), 100, 2⟩ (.err :: rest)
      = runCal fuel ⟨0, 100, 0, true, 8, (-1), (-1), 100, 4⟩ rest := by
  rw [LabjackCtl.runCal_cons_err]
  norm_num [LabjackCtl.repeatAdjust, LabjackCtl.obsFailAdjust,
    LabjackCtl.obsErrAdjust, LabjackCtl.degenerate, LabjackCtl.pyTrunc,
    LabjackCtl.pyModQ, LabjackCtl.calReturn]
/-- Step 3 of the all-`LJMError` calibration trace. -/
theorem calErrStep3 (fuel : Nat) (rest : List Trial) :
    runCal (fuel + 1) ⟨0, 100, 0, true, 8, (-1), (-1), 100, 4⟩ (.err :: rest)
      = runCal fuel ⟨0, 100, 0, true, 16, (-1), (-1), 100, 8⟩ rest := by
  rw [LabjackCtl.runCal_cons_err]
  norm_num [LabjackCtl.repeatAdjust, LabjackCtl.obsFailAdjust,
    LabjackCtl.obsErrAdjust, LabjackCtl.degenerate, LabjackCtl.pyTrunc,
    LabjackCtl.pyModQ, LabjackCtl.calReturn]
/-- Step 4 of the all-`LJMError` calibration trace. -/
theorem calErrStep4 (fuel : Nat) (rest : List Trial) :
    runCal (fuel + 1) ⟨0, 100, 0, true, 16, (-1), (-1), 100, 8⟩ (.err :: rest)
      = runCal fuel ⟨0, 100, 0, true, 32, (-1), (-1), 100, 16⟩ rest := by
  rw [LabjackCtl.runCal_cons_err]
  norm_num [LabjackCtl.repeatAdjust, LabjackCtl.obsFailAdjust,
    LabjackCtl.obsErrAdjust, LabjackCtl.degenerate, LabjackCtl.pyTrunc,
    LabjackCtl.pyModQ, LabjackCtl.calReturn]
/-- Step 5 of the all-`LJMError` calibration trace. -/
theorem calErrStep5 (fuel : Nat) (rest : List Trial) :
    runCal (fuel + 1) ⟨0, 100, 0, true, 32, (-1), (-1), 100, 16⟩ (.err :: rest)
      = runCal fuel ⟨0, 100, 0, true, 64, (-1), (-1), 100, 32⟩ rest := by
  rw [LabjackCtl.runCal_cons_err]
  norm_num [LabjackCtl.repeatAdjust, LabjackCtl.obsFailAdjust,
    LabjackCtl.obsErrAdjust, LabjackCtl.degenerate, LabjackCtl.pyTrunc,
    LabjackCtl.pyModQ, LabjackCtl.calReturn]
/-- Step 6 of the all-`LJMError` calibration trace. -/
theorem calErrStep6 (fuel : Nat) (rest : List Trial) :
    runCal (fuel + 1) ⟨0, 100, 0, true, 64, (-1), (-1), 100, 32⟩ (.err :: rest)
      = runCal fuel ⟨0, 100, 0, true, 100, (-1), (-1), 100, 64⟩ rest := by
  rw [LabjackCtl.runCal_cons_err]
  norm_num [LabjackCtl.repeatAdjust, LabjackCtl.obsFailAdjust,
    LabjackCtl.obsErrAdjust, LabjackCtl.degenerate, LabjackCtl.pyTrunc,
    LabjackCtl.pyModQ, LabjackCtl.calReturn]
/-- Final step of the all-`LJMError` trace: the packet size has
saturated, the `break` leaves the outer loop, `find_max_freq` returns
Python `None`. -/
theorem calErrStep7 (fuel : Nat) (rest : List Trial) :
    runCal (fuel + 1) ⟨0, 100, 0, true, 100, (-1), (-1), 100, 64⟩ (.err :: rest)
      = some none := by
  rw [LabjackCtl.runCal_cons_err]
  norm_num [LabjackCtl.repeatAdjust, LabjackCtl.obsFailAdjust,
    LabjackCtl.obsErrAdjust, LabjackCtl.degenerate, LabjackCtl.pyTrunc,
    LabjackCtl.pyModQ, LabjackCtl.calReturn]
/-- A device that opens but fails every observation window 35 times
drives `find_max_freq` to interval degeneration with no recorded
success; the function returns `(-100, -1)`. -/
theorem calFailTrace :
    runCal 50 initCal (List.replicate 35 .fail) = some (some (-100, -1)) := by
  rw [show LabjackCtl.initCal = ⟨0, 100, 0, true, 1, (-1), (-1), (-1), (-1)⟩ from rfl,
      show (List.replicate 35 Trial.fail : List Trial)
        = .fail :: .fail :: .fail :: .fail :: .fail :: .fail :: .fail ::
          .fail :: .fail :: .fail :: .fail :: .fail :: .fail :: .fail ::
          .fail :: .fail :: .fail :: .fail :: .fail :: .fail :: .fail ::
          .fail :: .fail :: .fail :: .fail :: .fail :: .fail :: .fail ::
          .fail :: .fail :: .fail :: .fail :: .fail :: .fail :: .fail :: [] from rfl,
      calFailStep0, calFailStep1, calFailStep2, calFailStep3, calFailStep4, calFailStep5, calFailStep6, calFailStep7, calFailStep8, calFailStep9, calFailStep10, calFailStep11, calFailStep12, calFailStep13, calFailStep14, calFailStep15, calFailStep16, calFailStep17, calFailStep18, calFailStep19, calFailStep20, calFailStep21, calFailStep22, calFailStep23, calFailStep24, calFailStep25, calFailStep26, calFailStep27, calFailStep28, calFailStep29, calFailStep30, calFailStep31, calFailStep32, calFailStep33, calFailStep34]

/-- A device whose stream opens but raises `LJMError` on every read
terminates the whole search through the mis-scoped `break`:
`find_max_freq` returns `None`, not a pair. -/
theorem calErrTrace :
    runCal 20 initCal (List.replicate 8 .err) = some none := by
  rw [show LabjackCtl.initCal = ⟨0, 100, 0, true, 1, (-1), (-1), (-1), (-1)⟩ from rfl,
      show (List.replicate 8 Trial.err : List Trial)
        = .err :: .err :: .err :: .err :: .err :: .err :: .err :: .err :: [] from rfl,
      calErrStep0, calErrStep1, calErrStep2, calErrStep3, calErrStep4, calErrStep5, calErrStep6, calErrStep7]

/-! ## Claim theorems -/

/-- C5: when `collect_data` (via `_setup`) is given
`scans_per_read > frequency` the packet size is *not* clamped to the
frequency: despite the warning text "Setting to be equal to the scan
rate", the code sets `int(frequency / 2)`.  At frequency 10 and
requested packet size 20 the stream is started with packet size 5, not
10; the unspecified case `-1` also resolves to `int(frequency / 2)`. -/
theorem setup_scansPerRead_clamps_to_half_frequency :
    resolve_scans_per_read 10 20 = (5, true)
    ∧ (5 : Int) ≠ 10
    ∧ resolve_scans_per_read 10 (-1) = (5, false) := by
  refine ⟨?_, by decide, ?_⟩ <;> decide

/-- C8: on a buffer containing written data, a `range` read with
`start ≥ end` raises the invalid-range exception; it never returns a
result value. -/
theorem toArray_range_start_ge_end_raises (s : ReaderState) (a b : Int)
    (hw : s.maxIdx ≠ 0) (hab : b ≤ a) :
    isError (to_array s (.range a b)) = true := by
  have h1 : ¬ max_index s < 0 := by
    simp only [max_index, if_neg hw]
    exact Int.not_lt.mpr (Int.natCast_nonneg _)
  have h2 : ¬ (0 ≤ a ∧ a < b ∧ b < ((writtenRows s : Nat) : Int)) := by
    rintro ⟨-, h4, -⟩; omega
  simp only [to_array, if_neg h1, if_neg h2, isError]

/-- C8 witness: a one-channel buffer with two written rows rejects
`start = 5, end = 3`. -/
theorem toArray_range_start_ge_end_raises_witness :
    isError (to_array ⟨["AIN0"], some [1, 0, 0, 2, 0, 0], 6⟩ (.range 5 3))
      = true :=
  toArray_range_start_ge_end_raises ⟨["AIN0"], some [1, 0, 0, 2, 0, 0], 6⟩
    5 3 (by decide) (by decide)

/-- C9: `to_array` in `range` mode returns data only under
`0 ≤ start < end < written_rows` (the strict upper bound excludes the
last written row), raises on every other pair once data exists, and in
particular rejects the full range `[0, written_rows)`. -/
theorem toArray_range_guard (s : ReaderState) (a b : Int) :
    (∀ rows, to_array s (.range a b) = .ok (some rows) →
      0 ≤ a ∧ a < b ∧ b < ((writtenRows s : Nat) : Int))
    ∧ (s.maxIdx ≠ 0 → ¬(0 ≤ a ∧ a < b ∧ b < ((writtenRows s : Nat) : Int)) →
        isError (to_array s (.range a b)) = true)
    ∧ (s.maxIdx ≠ 0 →
        isError (to_array s (.range 0 (writtenRows s))) = true) := by
  refine ⟨?_, ?_, ?_⟩
  · intro rows h
    by_cases hw : s.maxIdx = 0
    · have h1 : max_index s < 0 := by simp [max_index, hw]
      simp only [to_array, if_pos h1] at h
      cases h
    · have h1 : ¬ max_index s < 0 := by
        simp only [max_index, if_neg hw]
        exact Int.not_lt.mpr (Int.natCast_nonneg _)
      simp only [to_array, if_neg h1] at h
      by_cases h2 : 0 ≤ a ∧ a < b ∧ b < ((writtenRows s : Nat) : Int)
      · exact h2
      · rw [if_neg h2] at h; cases h
  · intro hw h2
    have h1 : ¬ max_index s < 0 := by
      simp only [max_index, if_neg hw]
      exact Int.not_lt.mpr (Int.natCast_nonneg _)
    simp only [to_array, if_neg h1, if_neg h2, isError]
  · intro hw
    have h1 : ¬ max_index s < 0 := by
      simp only [max_index, if_neg hw]
      exact Int.not_lt.mpr (Int.natCast_nonneg _)
    have h2 : ¬ (0 ≤ (0 : Int) ∧ (0 : Int) < (writtenRows s : Int) ∧
        ((writtenRows s : Nat) : Int) < ((writtenRows s : Nat) : Int)) := by
      rintro ⟨-, -, h5⟩; omega
    simp only [to_array, if_neg h1, if_neg h2, isError]

/-- C9 witness: on a one-channel buffer with three written rows
(`written_rows = 3`), `range (0, 2)` returns data and the guard holds;
`range (5, 3)` raises; the full range `[0, 3)` raises, so row 2 — the
last written row — is unreachable in range mode. -/
theorem toArray_range_guard_witness :
    ((0 : Int) ≤ 0 ∧ (0 : Int) < 2 ∧ (2 : Int) <
      ((writtenRows ⟨["AIN0"], some [1, 0, 0, 2, 0, 0, 0, 0, 0], 9⟩ : Nat) : Int))
    ∧ isError (to_array ⟨["AIN0"], some [1, 0, 0, 2, 0, 0, 0, 0, 0], 9⟩
        (.range 5 3)) = true
    ∧ isError (to_array ⟨["AIN0"], some [1, 0, 0, 2, 0, 0, 0, 0, 0], 9⟩
        (.range 0 (writtenRows ⟨["AIN0"], some [1, 0, 0, 2, 0, 0, 0, 0, 0], 9⟩)))
      = true :=
  ⟨(toArray_range_guard ⟨["AIN0"], some [1, 0, 0, 2, 0, 0, 0, 0, 0], 9⟩ 0 2).1
      [[1, 0, 0], [2, 0, 0]] rfl,
   (toArray_range_guard ⟨["AIN0"], some [1, 0, 0, 2, 0, 0, 0, 0, 0], 9⟩ 5 3).2.1
      (by decide) (by decide),
   (toArray_range_guard ⟨["AIN0"], some [1, 0, 0, 2, 0, 0, 0, 0, 0], 9⟩ 0 2).2.2
      (by decide)⟩

/-- C10: with zero flat entries written, `max_index` is `-1` (not `0`),
`max_row` is `-1`, and `to_array` returns `None` in every mode: the
empty buffer is signalled by sentinels, never by an empty sequence. -/
theorem empty_buffer_signalled_by_sentinels (s : ReaderState)
    (h : s.maxIdx = 0) :
    max_index s = -1 ∧ max_row s = -1 ∧
    ∀ m : ArrayMode, to_array s m = .ok none := by
  have h1 : max_index s = -1 := by simp [max_index, h]
  refine ⟨h1, ?_, ?_⟩
  · simp [max_row, h1]
  · intro m
    have h2 : max_index s < 0 := by omega
    simp only [to_array, if_pos h2]

/-- C10 witness: the freshly constructed reader. -/
theorem empty_buffer_signalled_by_sentinels_witness :
    max_index ReaderState.fresh = -1 ∧ max_row ReaderState.fresh = -1 ∧
    ∀ m : ArrayMode, to_array ReaderState.fresh m = .ok none :=
  empty_buffer_signalled_by_sentinels ReaderState.fresh (by decide)

set_option maxHeartbeats 2000000 in
/-- C1: the device-time column of a two-packet run.  With one channel,
`scans_per_read = 2`, `frequency = 2`, the packets `[1, 2]` and `[3, 4]`
produce device times `[0, 1/2, 0, 1/2]`: the `packet_num` term of the
formula stays `0` for every packet (its increment sits after the read
loop), so the time restarts at each packet boundary and the column is
not monotonic — the claimed value for row 2 would be
`(2/2) * (1 + 0/2) = 1`. -/
theorem collect_device_time_restarts_each_packet :
    (collect_run ⟨1, 2, 2, 12, fun _ => 0⟩ [[1, 2], [3, 4]]).map
        (fun o => deviceTimeColumn o.st 1) = some [0, 1/2, 0, 1/2]
    ∧ ¬ List.Chain' (· ≤ ·) [(0 : ℚ), 1/2, 0, 1/2]
    ∧ ((2 : ℚ) / 2) * (1 + 0 / 2) = 1 := by
  refine ⟨?_, ?_, by norm_num⟩
  · norm_num [collect_run, collectLoop, processPacket, scanOffsets,
    processScan, pySliceSet, pySet, initArr, countSentinels, maxIndexProp,
    deviceTimeColumn, List.range_succ, List.replicate, List.set, List.getD,
    List.take_succ_cons, List.drop_succ_cons, List.filter]
  · simp only [List.chain'_cons, List.chain'_singleton, and_true]
    norm_num

set_option maxHeartbeats 2000000 in
/-- C2: a sentinel reading in the first packet of two is not counted:
the skip accounting runs once, after the read loop, on the final packet
only.  One sentinel in the stream (`k = 1`, one channel) yields a
returned skip rate of `0`, not `k / channel_count = 1`. -/
theorem collect_skip_rate_counts_final_packet_only :
    countSentinels ([-9999, 1] ++ [2, 3]) = 1
    ∧ (collect_run ⟨1, 2, 2, 12, fun _ => 0⟩ [[-9999, 1], [2, 3]]).map
        (fun o => o.skipRate) = some 0
    ∧ (0 : ℚ) ≠ 1 / 1 := by
  refine ⟨by norm_num [countSentinels, List.filter], ?_, by norm_num⟩
  norm_num [collect_run, collectLoop, processPacket, scanOffsets,
    processScan, pySliceSet, pySet, initArr, countSentinels, maxIndexProp,
    deviceTimeColumn, List.range_succ, List.replicate, List.set, List.getD,
    List.take_succ_cons, List.drop_succ_cons, List.filter]

set_option maxHeartbeats 2000000 in
/-- C4: the spec example — one channel, frequency 10, one second, zero
loss — fills all `size = int(1 * 10 * (1 + 2)) = 30` flat entries, yet
`max_row` reports `int(30 / (1 + 1)) = 15` because it divides by
`len(channels) + 1` instead of the row width `len(channels) + 2`; the
documented row count is `30 / 3 = 10`. -/
theorem max_row_uses_wrong_divisor_on_spec_example :
    collectSize 1 10 1 = 30
    ∧ (readerAfter ["AIN0"] ⟨1, 5, 10, 30, fun _ => 0⟩
        [[1, 2, 3, 4, 5], [6, 7, 8, 9, 10]]).map max_row = some 15
    ∧ (readerAfter ["AIN0"] ⟨1, 5, 10, 30, fun _ => 0⟩
        [[1, 2, 3, 4, 5], [6, 7, 8, 9, 10]]).map max_index = some 30
    ∧ (30 : Int) / ((1 : Int) + 2) = 10
    ∧ (15 : Int) ≠ 10 := by
  refine ⟨by norm_num [collectSize, pyTrunc], ?_, ?_, by decide, by decide⟩
  · norm_num [readerAfter, collect_run, collectLoop, processPacket,
      scanOffsets, processScan, pySliceSet, pySet, initArr, countSentinels,
      maxIndexProp, max_row, max_index, List.range_succ, List.replicate,
      List.set, List.take_succ_cons, List.drop_succ_cons, List.filter]
  · norm_num [readerAfter, collect_run, collectLoop, processPacket,
      scanOffsets, processScan, pySliceSet, pySet, initArr, countSentinels,
      maxIndexProp, max_index, List.range_succ, List.replicate,
      List.set, List.take_succ_cons, List.drop_succ_cons, List.filter]

/-- C3 counterexample: a device that opens but fails every observation
window never yields a good candidate; when the bisection interval
degenerates `find_max_freq` returns
`(last_good_rate - last_good_rate % 100, last_good_scan_per_packet)`
with both sentinels still `-1`, i.e. `(-100, -1)` — not `(-1, -1)`,
because Python `-1 % 100 = 99`. -/
theorem findMaxFreq_total_failure_returns_minus_100 :
    runCal 50 initCal (List.replicate 35 .fail) = some (some (-100, -1))
    ∧ (((-100 : ℚ), (-1 : ℚ)) : ℚ × ℚ) ≠ ((-1 : ℚ), (-1 : ℚ)) :=
  ⟨calFailTrace, by norm_num [Prod.ext_iff]⟩

/-- C6: a stream that opens but raises `LJMError` on every read is
retried with growing packet size seven times; at the eighth error the
packet size has saturated (`scans_per_read ≥ med_rate`) and the `break`
inside the `except` clause exits the *outer* `while(1)` loop, so the
whole search terminates and `find_max_freq` returns Python `None` —
it does not bisect and continue as it does for an observed failure. -/
theorem findMaxFreq_ljmError_saturated_terminates_search :
    runCal 20 initCal (List.replicate 8 .err) = some none :=
  calErrTrace

/-! ## Shape of every value returned by `find_max_freq`

Every `return` statement of `find_max_freq` returns
`(last_good_rate - last_good_rate % 100, last_good_scan_per_packet)`,
and `last_good_*` is only ever written by the success branch.  The
lemmas below make that exact. -/

/-- `openFailAdjust` never touches the last-good fields. -/
theorem openFailAdjust_inl_lastGood (s s' : CalState)
    (h : openFailAdjust s = .inl s') :
    s'.lastGoodRate = s.lastGoodRate ∧ s'.lastGoodSpr = s.lastGoodSpr := by
  unfold openFailAdjust at h
  split at h
  · injection h with h'; subst h'; exact ⟨rfl, rfl⟩
  · dsimp only at h
    split at h
    · cases h
    · injection h with h'; subst h'; exact ⟨rfl, rfl⟩

/-- An early return from the open phase carries the floored last-good
pair of the entering state. -/
theorem openFailAdjust_inr_val (s : CalState) (v : ℚ × ℚ)
    (h : openFailAdjust s = .inr v) :
    v = (s.lastGoodRate - pyModQ s.lastGoodRate 100, s.lastGoodSpr) := by
  unfold openFailAdjust at h
  split at h
  · cases h
  · dsimp only at h
    split at h
    · injection h with h'; subst h'; rfl
    · cases h

/-- `obsFailAdjust` never touches the last-good fields. -/
theorem obsFailAdjust_inl_lastGood (s s' : CalState)
    (h : obsFailAdjust s = .inl s') :
    s'.lastGoodRate = s.lastGoodRate ∧ s'.lastGoodSpr = s.lastGoodSpr := by
  unfold obsFailAdjust at h
  split at h
  · injection h with h'; subst h'; exact ⟨rfl, rfl⟩
  · dsimp only at h
    split at h
    · cases h
    · injection h with h'; subst h'; exact ⟨rfl, rfl⟩

/-- An early return from the observed-failure branch carries the floored
last-good pair of the entering state. -/
theorem obsFailAdjust_inr_val (s : CalState) (v : ℚ × ℚ)
    (h : obsFailAdjust s = .inr v) :
    v = (s.lastGoodRate - pyModQ s.lastGoodRate 100, s.lastGoodSpr) := by
  unfold obsFailAdjust at h
  split at h
  · cases h
  · dsimp only at h
    split at h
    · injection h with h'; subst h'; rfl
    · cases h

/-- The recoverable branch of the `LJMError` handler never touches the
last-good fields. -/
theorem obsErrAdjust_inl_lastGood (s s' : CalState)
    (h : obsErrAdjust s = .inl s') :
    s'.lastGoodRate = s.lastGoodRate ∧ s'.lastGoodSpr = s.lastGoodSpr := by
  unfold obsErrAdjust at h
  split at h
  · injection h with h'; subst h'; exact ⟨rfl, rfl⟩
  · cases h

/-- A return from the success branch is also of the floored form. -/
theorem obsOkAdjust_inr_val (s : CalState) (v : ℚ × ℚ)
    (h : obsOkAdjust s = .inr v) :
    ∃ g p, v = (g - pyModQ g 100, p) := by
  unfold obsOkAdjust at h
  dsimp only at h
  split at h
  · split at h
    · injection h with h'; subst h'; exact ⟨_, _, rfl⟩
    · cases h
  · split at h
    · injection h with h'; subst h'; exact ⟨_, _, rfl⟩
    · cases h

/-- The repeated-candidate guard never touches the last-good fields. -/
theorem repeatAdjust_lastGood (s : CalState) :
    (repeatAdjust s).lastGoodRate = s.lastGoodRate ∧
    (repeatAdjust s).lastGoodSpr = s.lastGoodSpr := by
  unfold repeatAdjust
  split <;> exact ⟨rfl, rfl⟩

/-- The open phase preserves the last-good fields up to the opened
state, and every remaining trial comes from the supplied list. -/
theorem openPhase_opened_facts (tr : List Trial) :
    ∀ (s s1 : CalState) (t : Trial) (rest : List Trial),
      openPhase s tr = .opened s1 t rest →
      s1.lastGoodRate = s.lastGoodRate ∧ s1.lastGoodSpr = s.lastGoodSpr ∧
      ∀ x ∈ t :: rest, x ∈ tr := by
  induction tr with
  | nil => intro s s1 t rest h; cases h
  | cons t0 tl ih =>
    intro s s1 t rest h
    cases t0 with
    | openFail =>
      rw [openPhase] at h
      rcases ho : openFailAdjust s with s' | v <;> rw [ho] at h
      · obtain ⟨h1, h2, h3⟩ := ih s' s1 t rest h
        obtain ⟨hp1, hp2⟩ := openFailAdjust_inl_lastGood s s' ho
        exact ⟨h1.trans hp1, h2.trans hp2,
          fun x hx => List.mem_cons_of_mem _ (h3 x hx)⟩
      · cases h
    | fail => rw [openPhase] at h; cases h; exact ⟨rfl, rfl, fun x hx => hx⟩
    | err => rw [openPhase] at h; cases h; exact ⟨rfl, rfl, fun x hx => hx⟩
    | ok => rw [openPhase] at h; cases h; exact ⟨rfl, rfl, fun x hx => hx⟩

/-- An early return from the open phase carries the floored last-good
pair of the entering state. -/
theorem openPhase_returned_val (tr : List Trial) :
    ∀ (s : CalState) (v : ℚ × ℚ), openPhase s tr = .returned v →
      v = (s.lastGoodRate - pyModQ s.lastGoodRate 100, s.lastGoodSpr) := by
  induction tr with
  | nil => intro s v h; cases h
  | cons t0 tl ih =>
    intro s v h
    cases t0 with
    | openFail =>
      rw [openPhase] at h
      rcases ho : openFailAdjust s with s' | v' <;> rw [ho] at h
      · obtain ⟨hp1, hp2⟩ := openFailAdjust_inl_lastGood s s' ho
        rw [ih s' v h, hp1, hp2]
      · cases h; exact openFailAdjust_inr_val s v ho
    | fail => rw [openPhase] at h; cases h
    | err => rw [openPhase] at h; cases h
    | ok => rw [openPhase] at h; cases h

/-- Every pair `find_max_freq` returns is the floored last-good pair:
`(g - g % 100, p)` where `(g, p)` is either still the entering state's
last-good pair or was recorded at a successful trial of the oracle. -/
theorem runCal_returned_shape (fuel : Nat) :
    ∀ (s : CalState) (tr : List Trial) (r : ℚ × ℚ),
      runCal fuel s tr = some (some r) →
      ∃ g p, r = (g - pyModQ g 100, p) ∧
        ((g = s.lastGoodRate ∧ p = s.lastGoodSpr) ∨ Trial.ok ∈ tr) := by
  induction fuel with
  | zero => intro s tr r h; cases h
  | succ n ih =>
    intro s tr r h
    rw [runCal] at h
    rcases ho : openPhase s tr with ⟨s1, t, rest⟩ | v | _ <;> rw [ho] at h
    rotate_left
    · -- returned
      injection h with h'; injection h' with h''
      exact ⟨s.lastGoodRate, s.lastGoodSpr,
        h''.symm.trans (openPhase_returned_val tr s v ho), Or.inl ⟨rfl, rfl⟩⟩
    · cases h
    -- opened
    obtain ⟨e1, e2, e3⟩ := openPhase_opened_facts tr s s1 t rest ho
    dsimp only at h
    by_cases hrg : s1.lastAttemptRate = s1.medRate ∧
        s1.lastAttemptSpr = s1.spr ∧ s1.expMode = false
    · rw [if_pos hrg] at h
      obtain ⟨g, p, hsh, hc⟩ := ih (repeatAdjust s1) rest r h
      refine ⟨g, p, hsh, ?_⟩
      rcases hc with ⟨hg, hp⟩ | hmem
      · obtain ⟨hr1, hr2⟩ := repeatAdjust_lastGood s1
        exact Or.inl ⟨hg.trans (hr1.trans e1), hp.trans (hr2.trans e2)⟩
      · exact Or.inr (e3 _ (List.mem_cons_of_mem _ hmem))
    · rw [if_neg hrg] at h
      cases t with
      | openFail => cases h
      | fail =>
        dsimp only at h
        split at h
        · rename_i s3 hf
          obtain ⟨g, p, hsh, hc⟩ := ih s3 rest r h
          refine ⟨g, p, hsh, ?_⟩
          rcases hc with ⟨hg, hp⟩ | hmem
          · obtain ⟨hq1, hq2⟩ := obsFailAdjust_inl_lastGood _ s3 hf
            exact Or.inl ⟨hg.trans (hq1.trans e1), hp.trans (hq2.trans e2)⟩
          · exact Or.inr (e3 _ (List.mem_cons_of_mem _ hmem))
        · rename_i v hf
          injection h with h'; injection h' with h''
          refine ⟨s.lastGoodRate, s.lastGoodSpr, ?_, Or.inl ⟨rfl, rfl⟩⟩
          have hv := obsFailAdjust_inr_val _ v hf
          rw [← h'', hv]
          exact congrArg₂ (fun a b => (a - pyModQ a 100, b)) e1 e2
      | err =>
        dsimp only at h
        split at h
        · rename_i s3 hf
          obtain ⟨g, p, hsh, hc⟩ := ih s3 rest r h
          refine ⟨g, p, hsh, ?_⟩
          rcases hc with ⟨hg, hp⟩ | hmem
          · obtain ⟨hq1, hq2⟩ := obsErrAdjust_inl_lastGood _ s3 hf
            exact Or.inl ⟨hg.trans (hq1.trans e1), hp.trans (hq2.trans e2)⟩
          · exact Or.inr (e3 _ (List.mem_cons_of_mem _ hmem))
        · injection h with h'; cases h'
      | ok =>
        dsimp only at h
        split at h
        · rename_i s3 hf
          obtain ⟨g, p, hsh, _⟩ := ih s3 rest r h
          exact ⟨g, p, hsh, Or.inr (e3 _ (List.mem_cons_self _ _))⟩
        · rename_i v hf
          injection h with h'; injection h' with h''
          obtain ⟨g, p, hv⟩ := obsOkAdjust_inr_val _ v hf
          exact ⟨g, p, h''.symm.trans hv,
            Or.inr (e3 _ (List.mem_cons_self _ _))⟩

/-- C3 (amended): whenever `find_max_freq` returns a pair, it is
`(g - g % 100, p)` for the final recorded last-good configuration
`(g, p)`; if no trial of the run ever succeeded, the sentinels
`g = p = -1` are still in place and the returned pair is `(-100, -1)`
(`-1 - (-1 % 100) = -100` in Python), not `(-1, -1)`. -/
theorem findMaxFreq_return_values (fuel : Nat) (oracle : List Trial)
    (r : ℚ × ℚ) (h : runCal fuel initCal oracle = some (some r)) :
    (Trial.ok ∉ oracle → r = (-100, -1))
    ∧ ∃ g p, r = (g - pyModQ g 100, p) := by
  obtain ⟨g, p, hsh, hc⟩ := runCal_returned_shape fuel initCal oracle r h
  refine ⟨?_, g, p, hsh⟩
  intro hok
  rcases hc with ⟨hg, hp⟩ | hmem
  · rw [hsh, hg, hp]
    have : initCal.lastGoodRate = -1 ∧ initCal.lastGoodSpr = -1 := ⟨rfl, rfl⟩
    rw [this.1, this.2]
    norm_num [pyModQ, Prod.ext_iff]
  · exact absurd hmem hok

/-- C3 amended-claim witness: the all-failures trace instantiates the
theorem; the returned pair is `(-100, -1)`. -/
theorem findMaxFreq_return_values_witness :
    (Trial.ok ∉ List.replicate 35 Trial.fail →
      (((-100 : ℚ), (-1 : ℚ)) : ℚ × ℚ) = (-100, -1))
    ∧ ∃ g p, (((-100 : ℚ), (-1 : ℚ)) : ℚ × ℚ) = (g - pyModQ g 100, p) :=
  findMaxFreq_return_values 50 (List.replicate 35 .fail) (-100, -1)
    calFailTrace

/-! ## Write-cursor invariants of the capture loop -/

/-- A successful ctypes slice assignment preserves the array length. -/
theorem pySliceSet_length (arr : List ℚ) (c span : Nat) (vals arr' : List ℚ)
    (h : pySliceSet arr c span vals = some arr') :
    arr'.length = arr.length := by
  unfold pySliceSet at h
  dsimp only at h
  split at h
  · rename_i hc
    injection h with h'
    subst h'
    have m1 : min c arr.length ≤ arr.length := min_le_right _ _
    have m2 : min (c + span) arr.length ≤ arr.length := min_le_right _ _
    have m4 : min c arr.length ≤ min (c + span) arr.length :=
      min_le_min (Nat.le_add_right _ _) (le_refl _)
    simp only [List.length_append, List.length_take, List.length_drop]
    omega
  · cases h

/-- The success condition of a ctypes slice assignment. -/
theorem pySliceSet_some_cond (arr : List ℚ) (c span : Nat)
    (vals arr' : List ℚ) (h : pySliceSet arr c span vals = some arr') :
    min (c + span) arr.length - min c arr.length = vals.length := by
  unfold pySliceSet at h
  dsimp only at h
  split at h
  · rename_i hc; exact hc
  · cases h

/-- A successful ctypes single assignment was in range and preserves the
array length. -/
theorem pySet_some_facts (arr : List ℚ) (idx : Nat) (v : ℚ)
    (arr' : List ℚ) (h : pySet arr idx v = some arr') :
    idx < arr.length ∧ arr'.length = arr.length := by
  unfold pySet at h
  split at h
  · rename_i hlt
    injection h with h'
    subst h'
    exact ⟨hlt, List.length_set arr idx v⟩
  · cases h

/-- The write cursor never moves backward in one scan iteration. -/
theorem processScan_maxIdx_mono (cfg : CollectConfig) (pktNum : Nat)
    (pkt : List ℚ) (i : Nat) (st : CollectState) :
    st.maxIdx ≤ (processScan cfg pktNum pkt i st).maxIdx := by
  unfold processScan
  split
  · exact le_rfl
  split
  · exact le_rfl
  dsimp only
  split
  · exact le_rfl
  split
  · exact Nat.le_add_right _ _
  split
  · exact Nat.le_succ_of_le (Nat.le_add_right _ _)
  · exact Nat.le_succ_of_le (Nat.le_succ_of_le (Nat.le_add_right _ _))

/-- One scan iteration keeps the cursor within capacity and preserves
the array length, provided the chunk it writes is a whole scan
(`i + numChannels ≤ pkt.length`, which holds for device packets of
`scans_per_read * numChannels` samples). -/
theorem processScan_bound (cfg : CollectConfig) (pktNum : Nat)
    (pkt : List ℚ) (i : Nat) (st : CollectState)
    (hlen : st.arr.length = cfg.size) (hle : st.maxIdx ≤ cfg.size)
    (hpkt : i + cfg.numChannels ≤ pkt.length) :
    (processScan cfg pktNum pkt i st).maxIdx ≤ cfg.size ∧
    (processScan cfg pktNum pkt i st).arr.length = cfg.size := by
  unfold processScan
  split
  · exact ⟨hle, hlen⟩
  split
  · exact ⟨hle, hlen⟩
  rename_i hge
  dsimp only
  split
  · exact ⟨hle, hlen⟩
  rename_i a1 h1
  have hslen : a1.length = st.arr.length := pySliceSet_length _ _ _ _ _ h1
  have hcond := pySliceSet_some_cond _ _ _ _ _ h1
  have hvals : ((pkt.drop i).take cfg.numChannels).length = cfg.numChannels := by
    simp only [List.length_take, List.length_drop]
    omega
  have hc1 : st.maxIdx + cfg.numChannels ≤ cfg.size := by
    rw [hvals] at hcond
    have m1 : min st.maxIdx st.arr.length = st.maxIdx := by
      apply min_eq_left; omega
    have m2 : min (st.maxIdx + cfg.numChannels) st.arr.length ≤
        st.arr.length := min_le_right _ _
    have m4 : min st.maxIdx st.arr.length ≤
        min (st.maxIdx + cfg.numChannels) st.arr.length :=
      min_le_min (Nat.le_add_right _ _) (le_refl _)
    omega
  split
  · exact ⟨hc1, by rw [hslen, hlen]⟩
  rename_i a2 h2
  obtain ⟨h2lt, h2len⟩ := pySet_some_facts _ _ _ _ h2
  split
  · refine ⟨?_, by rw [h2len, hslen, hlen]⟩
    show st.maxIdx + cfg.numChannels + 1 ≤ cfg.size
    omega
  rename_i a3 h3
  obtain ⟨h3lt, h3len⟩ := pySet_some_facts _ _ _ _ h3
  constructor
  · show st.maxIdx + cfg.numChannels + 2 ≤ cfg.size
    omega
  · show a3.length = cfg.size
    rw [h3len, h2len, hslen, hlen]

/-- Every offset generated by `range(0, len, step)` starts a whole scan
when `step` divides `len`. -/
theorem scanOffsets_add_le (nc len : Nat) (hdvd : nc ∣ len) :
    ∀ i ∈ scanOffsets nc len, i + nc ≤ len := by
  intro i hi
  unfold scanOffsets at hi
  rcases List.mem_map.mp hi with ⟨k, hk, rfl⟩
  rw [List.mem_range] at hk
  obtain ⟨q, rfl⟩ := hdvd
  rcases Nat.eq_zero_or_pos nc with h0 | hpos
  · subst h0; simp at hk
  · have hrw : nc * q + nc - 1 = (nc - 1) + q * nc := by
      rw [Nat.mul_comm nc q]
      omega
    have hdiv : (nc * q + nc - 1) / nc = q := by
      rw [hrw, Nat.add_mul_div_right _ _ hpos, Nat.div_eq_of_lt (by omega)]
      omega
    rw [hdiv] at hk
    have hmul : (k + 1) * nc ≤ q * nc := Nat.mul_le_mul_right _ hk
    calc k * nc + nc = (k + 1) * nc := by ring
      _ ≤ q * nc := hmul
      _ = nc * q := by ring

/-- The scan loop over any offset list never moves the cursor backward. -/
theorem processScans_mono (cfg : CollectConfig) (pktNum : Nat)
    (pkt : List ℚ) :
    ∀ (offs : List Nat) (st : CollectState),
      st.maxIdx ≤
        (offs.foldl (fun s i => processScan cfg pktNum pkt i s) st).maxIdx := by
  intro offs
  induction offs with
  | nil => intro st; exact le_rfl
  | cons i rest ih =>
    intro st
    simp only [List.foldl_cons]
    exact le_trans (processScan_maxIdx_mono cfg pktNum pkt i st) (ih _)

/-- The scan loop over whole-scan offsets keeps the cursor within
capacity and preserves the array length. -/
theorem processScans_bound (cfg : CollectConfig) (pktNum : Nat)
    (pkt : List ℚ) :
    ∀ (offs : List Nat) (st : CollectState),
      (∀ i ∈ offs, i + cfg.numChannels ≤ pkt.length) →
      st.arr.length = cfg.size → st.maxIdx ≤ cfg.size →
      (offs.foldl (fun s i => processScan cfg pktNum pkt i s) st).maxIdx ≤
          cfg.size ∧
      (offs.foldl (fun s i => processScan cfg pktNum pkt i s) st).arr.length =
          cfg.size := by
  intro offs
  induction offs with
  | nil => intro st _ hlen hle; exact ⟨hle, hlen⟩
  | cons i rest ih =>
    intro st hoffs hlen hle
    simp only [List.foldl_cons]
    obtain ⟨hb1, hb2⟩ := processScan_bound cfg pktNum pkt i st hlen hle
      (hoffs i (List.mem_cons_self _ _))
    exact ih _ (fun j hj => hoffs j (List.mem_cons_of_mem _ hj)) hb2 hb1

/-- Packet-level cursor monotonicity. -/
theorem processPacket_mono (cfg : CollectConfig) (pktNum : Nat)
    (pkt : List ℚ) (st : CollectState) :
    st.maxIdx ≤ (processPacket cfg pktNum pkt st).maxIdx :=
  processScans_mono cfg pktNum pkt _ st

/-- Packet-level capacity bound for device-shaped packets. -/
theorem processPacket_bound (cfg : CollectConfig) (pktNum : Nat)
    (pkt : List ℚ) (st : CollectState)
    (hdvd : cfg.numChannels ∣ pkt.length)
    (hlen : st.arr.length = cfg.size) (hle : st.maxIdx ≤ cfg.size) :
    (processPacket cfg pktNum pkt st).maxIdx ≤ cfg.size ∧
    (processPacket cfg pktNum pkt st).arr.length = cfg.size :=
  processScans_bound cfg pktNum pkt _ st
    (scanOffsets_add_le cfg.numChannels pkt.length hdvd) hlen hle

/-- The packet loop never moves the cursor backward. -/
theorem collectLoop_mono (cfg : CollectConfig) :
    ∀ (pkts : List (List ℚ)) (st : CollectState) (lastP : Option (List ℚ)),
      st.maxIdx ≤ (collectLoop cfg pkts st lastP).st.maxIdx := by
  intro pkts
  induction pkts with
  | nil => intro st lastP; exact le_rfl
  | cons p rest ih =>
    intro st lastP
    rw [collectLoop]
    split
    · exact le_rfl
    split
    · exact le_trans (processPacket_mono cfg 0 p st) (ih _ _)
    · exact le_rfl

/-- The packet loop keeps the cursor within capacity for device-shaped
packets, and preserves the array length. -/
theorem collectLoop_bound (cfg : CollectConfig) :
    ∀ (pkts : List (List ℚ)) (st : CollectState) (lastP : Option (List ℚ)),
      (∀ p ∈ pkts, cfg.numChannels ∣ p.length) →
      st.arr.length = cfg.size → st.maxIdx ≤ cfg.size →
      (collectLoop cfg pkts st lastP).st.maxIdx ≤ cfg.size ∧
      (collectLoop cfg pkts st lastP).st.arr.length = cfg.size := by
  intro pkts
  induction pkts with
  | nil => intro st lastP _ hlen hle; exact ⟨hle, hlen⟩
  | cons p rest ih =>
    intro st lastP hdvd hlen hle
    rw [collectLoop]
    split
    · exact ⟨hle, hlen⟩
    split
    · obtain ⟨hb1, hb2⟩ := processPacket_bound cfg 0 p st
        (hdvd p (List.mem_cons_self _ _)) hlen hle
      exact ih _ _ (fun q hq => hdvd q (List.mem_cons_of_mem _ hq)) hb2 hb1
    · exact ⟨hle, hlen⟩

set_option maxHeartbeats 2000000 in
/-- C7 counterexample: after the zero-loss one-channel run that fills
all 30 flat entries, `row_count() * (len(channels) + 2)` evaluates to
`int(30 / 2) * 3 = 45`, which exceeds the allocated capacity 30 —
because `max_row` divides by `len(channels) + 1` (C4), the claimed
equivalence with the flat-entry bound fails. -/
theorem row_count_width_product_exceeds_capacity :
    (readerAfter ["AIN0"] ⟨1, 5, 10, 30, fun _ => 0⟩
        [[1, 2, 3, 4, 5], [6, 7, 8, 9, 10]]).map
      (fun s => max_row s * ((s.inputChannels.length : Int) + 2)) = some 45
    ∧ ¬ ((45 : Int) ≤ 30) := by
  refine ⟨?_, by decide⟩
  norm_num [readerAfter, collect_run, collectLoop, processPacket,
    scanOffsets, processScan, pySliceSet, pySet, initArr, countSentinels,
    maxIndexProp, max_row, max_index, List.range_succ, List.replicate,
    List.set, List.take_succ_cons, List.drop_succ_cons, List.filter]

/-- C7 (amended): throughout every `collect_data` run the write cursor
`_max_index` only moves forward, and — for device-shaped packets, each
holding a whole number of scans — the number of written flat entries
never exceeds the allocated capacity
`size = int(seconds * frequency * (len(channels) + 2))`; consequently
`(max_index / (len(channels) + 2))` full rows of width
`len(channels) + 2` fit within capacity.  (The claim's restatement via
`row_count()` fails, since `max_row` divides by `len(channels) + 1`.) -/
theorem collect_cursor_forward_and_within_capacity
    (cfg : CollectConfig) (pkts : List (List ℚ)) (st : CollectState)
    (lastP : Option (List ℚ))
    (hdvd : ∀ p ∈ pkts, cfg.numChannels ∣ p.length)
    (hlen : st.arr.length = cfg.size) (hle : st.maxIdx ≤ cfg.size) :
    st.maxIdx ≤ (collectLoop cfg pkts st lastP).st.maxIdx
    ∧ (collectLoop cfg pkts st lastP).st.maxIdx ≤ cfg.size
    ∧ ((collectLoop cfg pkts st lastP).st.maxIdx / (cfg.numChannels + 2)) *
        (cfg.numChannels + 2) ≤ cfg.size := by
  obtain ⟨hb1, _⟩ := collectLoop_bound cfg pkts st lastP hdvd hlen hle
  exact ⟨collectLoop_mono cfg pkts st lastP, hb1,
    le_trans (Nat.div_mul_le_self _ _) hb1⟩

/-- C7 amended-claim witness: the two-packet one-channel run from a
fresh buffer of capacity 12. -/
theorem collect_cursor_forward_and_within_capacity_witness :
    (⟨initArr 12, 0, false⟩ : CollectState).maxIdx ≤
      (collectLoop ⟨1, 2, 2, 12, fun _ => 0⟩ [[1, 2], [3, 4]]
        ⟨initArr 12, 0, false⟩ none).st.maxIdx
    ∧ (collectLoop ⟨1, 2, 2, 12, fun _ => 0⟩ [[1, 2], [3, 4]]
        ⟨initArr 12, 0, false⟩ none).st.maxIdx ≤ 12
    ∧ ((collectLoop ⟨1, 2, 2, 12, fun _ => 0⟩ [[1, 2], [3, 4]]
        ⟨initArr 12, 0, false⟩ none).st.maxIdx / (1 + 2)) * (1 + 2) ≤ 12 :=
  collect_cursor_forward_and_within_capacity ⟨1, 2, 2, 12, fun _ => 0⟩
    [[1, 2], [3, 4]] ⟨initArr 12, 0, false⟩ none
    (by intro p hp; fin_cases hp <;> decide)
    (by simp [initArr])
    (Nat.zero_le _)

end LabjackCtl
